import Mathlib

set_option maxRecDepth 8000

/-!
Verification of the cinesense bulk import pipeline
(`movies/management/commands/import_movies.py` and
`movies/services/tmdb_parser.py`) against its specification.

Part 1 models the supervisor loop `bulk_import_tmdb`.  The loop consumes a
lazy stream of movie entries; for the CSV path each element is an
already-normalized field dict, for the JSON path the loop first applies the
adult filter, the popularity filter and `movie_to_django_fields`.  All of
those per-entry decisions are deterministic and stateless, so a stream
element is modelled by its classification: skipped as adult, skipped as
unpopular, invalid (normalizer returned a falsy value), or a valid record.
Of a valid record the loop only ever reads `fields['tmdb_id']`, so a record
is modelled by its id plus an opaque payload distinguishing records.
-/

namespace Cinesense

/-- A normalized movie record as seen by the supervisor loop: the loop reads
only `fields['tmdb_id']`; `payload` stands for all remaining fields. -/
structure MovieRow where
  tmdbId : Int
  payload : Nat
deriving DecidableEq

/-- One element of the parser stream, classified by the deterministic
per-entry filter/conversion logic of `bulk_import_tmdb` (lines 150-176). -/
inductive StreamItem where
  | adult : StreamItem
  | unpopular : StreamItem
  | invalid : StreamItem
  | valid : MovieRow → StreamItem
deriving DecidableEq

/-- The mutable state of `bulk_import_tmdb` (lines 102-109): the counters,
the in-memory dedup id set `existing_ids`, the pending `batch`, and the
record of every `_bulk_create_batch` call made so far. -/
structure ImportState where
  imported : Nat
  skippedExisting : Nat
  skippedInvalid : Nat
  skippedAdult : Nat
  skippedUnpopular : Nat
  processed : Nat
  existingIds : List Int
  batch : List MovieRow
  commits : List (List MovieRow)
deriving DecidableEq

/-- Initial state: counters zero, `existing_ids` seeded from the store
(lines 96-99), empty batch, no commits yet. -/
def initState (seed : List Int) : ImportState :=
  { imported := 0, skippedExisting := 0, skippedInvalid := 0,
    skippedAdult := 0, skippedUnpopular := 0, processed := 0,
    existingIds := seed, batch := [], commits := [] }

/-- `_bulk_create_batch(batch); imported += len(batch); batch = []`
(lines 193-195 and 210-212): the whole pending batch is handed to the
committer, `imported` grows by the batch length, the batch is reset. -/
def flushBatch (s : ImportState) : ImportState :=
  { s with commits := s.commits ++ [s.batch],
           imported := s.imported + s.batch.length,
           batch := [] }

/-- `if batch: _bulk_create_batch(batch); imported += len(batch)` — the
flush of a non-empty pending batch, run after the loop ends (lines 209-212)
and in the `KeyboardInterrupt` handler (lines 216-219). -/
def finalFlush (s : ImportState) : ImportState :=
  if s.batch.isEmpty then s else flushBatch s

/-- One iteration of the `for movie_data in movie_iter` body (lines 148-195),
after the limit check: bump `processed`, classify, and on acceptance add the
id to `existing_ids`, append to the batch and flush when it is full. -/
def importStep (bs : Nat) (s : ImportState) (it : StreamItem) : ImportState :=
  match it with
  | .adult =>
      { s with processed := s.processed + 1, skippedAdult := s.skippedAdult + 1 }
  | .unpopular =>
      { s with processed := s.processed + 1, skippedUnpopular := s.skippedUnpopular + 1 }
  | .invalid =>
      { s with processed := s.processed + 1, skippedInvalid := s.skippedInvalid + 1 }
  | .valid r =>
      if r.tmdbId ∈ s.existingIds then
        { s with processed := s.processed + 1,
                 skippedExisting := s.skippedExisting + 1 }
      else
        let s2 := { s with processed := s.processed + 1,
                           existingIds := r.tmdbId :: s.existingIds,
                           batch := s.batch ++ [r] }
        if bs ≤ s2.batch.length then flushBatch s2 else s2

/-- The streaming loop proper: at the top of every iteration
`if imported >= limit: break` (lines 143-146), otherwise run the body. -/
def importSteps (limit bs : Nat) : ImportState → List StreamItem → ImportState
  | s, [] => s
  | s, it :: rest =>
      if limit ≤ s.imported then s
      else importSteps limit bs (importStep bs s it) rest

/-- The same loop with the limit break removed; used to state what the loop
computes when the break never fires. -/
def importFold (bs : Nat) : ImportState → List StreamItem → ImportState
  | s, [] => s
  | s, it :: rest => importFold bs (importStep bs s it) rest

/-- A full, uninterrupted run of `bulk_import_tmdb`: stream the entries
through the loop, then flush the pending batch (lines 142-212). -/
def bulkImport (limit bs : Nat) (seed : List Int) (stream : List StreamItem) :
    ImportState :=
  finalFlush (importSteps limit bs (initState seed) stream)

/-- A run cancelled by `KeyboardInterrupt` at a record boundary after `k`
stream elements were consumed: the handler still flushes the pending batch
(lines 214-219). -/
def bulkImportInterrupted (limit bs : Nat) (seed : List Int)
    (stream : List StreamItem) (k : Nat) : ImportState :=
  finalFlush (importSteps limit bs (initState seed) (stream.take k))

/-- `_bulk_create_batch` (lines 248-267), parameterized by whether the
batch-level `bulk_create` raises (`bulkOk`) and which records an individual
`movie.save()` accepts (`saveOk`): the result is the list of records that
end up persisted.  The Python function returns `None`; no count of what was
actually committed flows back to the caller. -/
def bulk_create_batch (bulkOk : Bool) (saveOk : MovieRow → Bool)
    (batch : List MovieRow) : List MovieRow :=
  if bulkOk then batch else batch.filter saveOk

/-- The records the loop accepts (not in `seen` = store ids plus ids already
accepted), in stream order.  This is the specification-level value the loop
state is related to. -/
def acceptedRows : List Int → List StreamItem → List MovieRow
  | _, [] => []
  | seen, .valid r :: rest =>
      if r.tmdbId ∈ seen then acceptedRows seen rest
      else r :: acceptedRows (r.tmdbId :: seen) rest
  | seen, .adult :: rest => acceptedRows seen rest
  | seen, .unpopular :: rest => acceptedRows seen rest
  | seen, .invalid :: rest => acceptedRows seen rest

/-- The number M of valid entries whose id is already in the seeded set or
repeats the id of an earlier accepted entry of the same stream. -/
def dupCount : List Int → List StreamItem → Nat
  | _, [] => 0
  | seen, .valid r :: rest =>
      if r.tmdbId ∈ seen then dupCount seen rest + 1
      else dupCount (r.tmdbId :: seen) rest
  | seen, .adult :: rest => dupCount seen rest
  | seen, .unpopular :: rest => dupCount seen rest
  | seen, .invalid :: rest => dupCount seen rest

/-- Number of valid (well-formed) entries of the stream. -/
def countValid : List StreamItem → Nat
  | [] => 0
  | .valid _ :: rest => countValid rest + 1
  | _ :: rest => countValid rest

/-- Number of entries the normalizer rejects. -/
def countInvalid : List StreamItem → Nat
  | [] => 0
  | .invalid :: rest => countInvalid rest + 1
  | _ :: rest => countInvalid rest

/-- Number of entries skipped by the adult filter. -/
def countAdult : List StreamItem → Nat
  | [] => 0
  | .adult :: rest => countAdult rest + 1
  | _ :: rest => countAdult rest

/-- Number of entries skipped by the popularity filter. -/
def countUnpopular : List StreamItem → Nat
  | [] => 0
  | .unpopular :: rest => countUnpopular rest + 1
  | _ :: rest => countUnpopular rest

/-!
Part 2 models the parsers and normalizers of
`movies/services/tmdb_parser.py`.  Python strings are `String`, Python
string slicing `s[:n]`, `str.lower` (for the ASCII range these comparisons
need), `str.startswith` and `int()`/`float()` of decimal literals are
modelled below on the character list of the string.  `float` values are
`Rat`; the binary rounding of IEEE floats is not modelled (no claim depends
on it).
-/

/-- Python `s[:n]` (slicing by code points). -/
def pySlice (s : String) (n : Nat) : String :=
  String.mk (s.data.take n)

/-- ASCII lower-casing of one character, the fragment of `str.lower` the
parser's comparisons (`'released'`, crew job names, `'nan'`) exercise. -/
def lowerChar (c : Char) : Char :=
  if 65 ≤ c.toNat ∧ c.toNat ≤ 90 then Char.ofNat (c.toNat + 32) else c

/-- Python `s.lower()` on ASCII data. -/
def pyLower (s : String) : String :=
  String.mk (s.data.map lowerChar)

/-- Python `s.startswith(p)`. -/
def pyStartsWith (s p : String) : Bool :=
  p.data.isPrefixOf s.data

/-- ASCII decimal digit test. -/
def isDigitChar (c : Char) : Bool :=
  48 ≤ c.toNat && c.toNat ≤ 57

/-- Value of a list of decimal digit characters. -/
def digitsVal (l : List Char) : Nat :=
  l.foldl (fun a c => a * 10 + (c.toNat - 48)) 0

/-- Python `int(s)` on a string: optional sign followed by decimal digits,
`None` (a raised `ValueError`) otherwise. -/
def pyInt? (s : String) : Option Int :=
  match s.data with
  | [] => none
  | c :: rest =>
      if c = Char.ofNat 45 then
        if rest.isEmpty || !rest.all isDigitChar then none
        else some (-(digitsVal rest : Int))
      else if c = Char.ofNat 43 then
        if rest.isEmpty || !rest.all isDigitChar then none
        else some ((digitsVal rest : Int))
      else if (c :: rest).all isDigitChar then some ((digitsVal (c :: rest) : Int))
      else none

/-- Splits a character list at the first `.`, keeping the remainder raw (a
second dot therefore fails the digit test of the caller). -/
def splitDot : List Char → List Char × Option (List Char)
  | [] => ([], none)
  | c :: rest =>
      if c = Char.ofNat 46 then ([], some rest)
      else
        let p := splitDot rest
        (c :: p.1, p.2)

/-- Python `float(s)` on a decimal literal `[sign] digits [. digits]`,
returned as sign, integer-part digits and fraction-part digits; `none` for
a raised `ValueError`. -/
def parseDecimal? (s : String) : Option (Bool × List Char × List Char) :=
  let sl : Bool × List Char :=
    match s.data with
    | c :: rest =>
        if c = Char.ofNat 45 then (true, rest)
        else if c = Char.ofNat 43 then (false, rest)
        else (false, s.data)
    | [] => (false, [])
  let p := splitDot sl.2
  match p.2 with
  | some frac =>
      if (p.1.isEmpty && frac.isEmpty) || !p.1.all isDigitChar || !frac.all isDigitChar then
        none
      else some (sl.1, p.1, frac)
  | none =>
      if p.1.isEmpty || !p.1.all isDigitChar then none
      else some (sl.1, p.1, [])

/-- The rational value of a parsed decimal literal. -/
def decimalVal (sgn : Bool) (ip fp : List Char) : Rat :=
  let v : Rat := (digitsVal ip : Rat) + (digitsVal fp : Rat) / ((10 : Rat) ^ fp.length)
  if sgn then -v else v

/-- Python `int(float(s))` of a parsed decimal literal: truncation toward
zero, i.e. the signed integer part with the fraction dropped. -/
def decimalTrunc (sgn : Bool) (ip : List Char) : Int :=
  if sgn then -(digitsVal ip : Int) else (digitsVal ip : Int)

/-- `KaggleTMDBParser._safe_float` (lines 532-539): `None` for empty /
`nan` / `none` markers, then `float(value)` with errors mapped to `None`. -/
def safe_float (value : String) : Option Rat :=
  if value = "" || pyLower value = "nan" || pyLower value = "none" then none
  else (parseDecimal? value).map fun p => decimalVal p.1 p.2.1 p.2.2

/-- `KaggleTMDBParser._safe_int` (lines 541-548): `None` for empty / `nan`
/ `none` markers, then `int(float(value))` with errors mapped to `None`. -/
def safe_int (value : String) : Option Int :=
  if value = "" || pyLower value = "nan" || pyLower value = "none" then none
  else (parseDecimal? value).map fun p => decimalTrunc p.1 p.2.1

/-- `KaggleTMDBParser._parse_year` (lines 518-530). -/
def parse_year (release_date : String) : Option Int :=
  if release_date = "" || release_date = "nan" || release_date = "None" then none
  else if 4 ≤ release_date.length then
    match pyInt? (pySlice release_date 4) with
    | some y => if 1888 ≤ y ∧ y ≤ 2100 then some y else none
    | none => none
  else none

/-- A raw hierarchical (JSON) movie object, with the fields the code
reads.  A JSON field that is absent or `null` is `none`; `genre_ids`
defaults to `[]` exactly as `movie_data.get('genre_ids', [])` does.  The
dataset's field types (string titles and dates, integer id, numeric
popularity) are used directly. -/
structure RawMovie where
  id : Option Int
  title : Option String
  original_title : Option String
  release_date : Option String
  genre_ids : List Int
  poster_path : Option String
  popularity : Option Rat
  overview : Option String
  adult : Bool
  original_language : Option String
deriving DecidableEq

/-- Truthiness of `movie.get(k)` for a string field: present and
non-empty. -/
def truthyS : Option String → Bool
  | none => false
  | some s => s != ""

/-- `TMDBParser._is_valid_movie` (lines 198-212).  The source expression is
`isinstance(movie, dict) and movie.get('id') is not None and
movie.get('title') or movie.get('original_title')`, which Python parses as
`(A and B and C) or D`; on a dict input `A` is true, leaving
`(id is not None and title) or original_title`. -/
def is_valid_movie (movie : RawMovie) : Bool :=
  (movie.id.isSome && truthyS movie.title) || truthyS movie.original_title

/-- The validator as the spec words it ("must have an identifier and a
title in one of two aliased fields"): identifier required regardless of the
other fields.  Stated only to compare with `is_valid_movie`. -/
def is_valid_movie_spec (movie : RawMovie) : Bool :=
  movie.id.isSome && (truthyS movie.title || truthyS movie.original_title)

/-- `TMDBParser.GENRE_MAP` (lines 60-80). -/
def GENRE_MAP : List (Int × String) :=
  [(28, "Action"), (12, "Adventure"), (16, "Animation"), (35, "Comedy"),
   (80, "Crime"), (99, "Documentary"), (18, "Drama"), (10751, "Family"),
   (14, "Fantasy"), (36, "History"), (27, "Horror"), (10402, "Music"),
   (9648, "Mystery"), (10749, "Romance"), (878, "Science Fiction"),
   (10770, "TV Movie"), (53, "Thriller"), (10752, "War"), (37, "Western")]

/-- `gid in GENRE_MAP` lookup. -/
def lookupGenre (gid : Int) : Option String :=
  (GENRE_MAP.find? fun p => p.1 == gid).map fun p => p.2

/-- `TMDBParser.parse_genres` (lines 214-233): known ids resolved through
the static table, unknown ids dropped, names comma-joined. -/
def parse_genres (genre_ids : List Int) : String :=
  if genre_ids.isEmpty then ""
  else String.intercalate ", " (genre_ids.filterMap lookupGenre)

/-- `TMDBParser.parse_release_year` (lines 235-257). -/
def parse_release_year (release_date : Option String) : Option Int :=
  match release_date with
  | none => none
  | some s =>
      if s = "" then none
      else if 4 ≤ s.length then
        match pyInt? (pySlice s 4) with
        | some y => if 1888 ≤ y ∧ y ≤ 2100 then some y else none
        | none => none
      else none

/-- Python `a or b` on two optional strings (`movie_data.get('title') or
movie_data.get('original_title')`). -/
def pyOrS (a b : Option String) : Option String :=
  match a with
  | some s => if s = "" then b else some s
  | none => b

/-- The Django `Movie` field dict both normalizers produce (the keys of the
dicts returned at lines 307-332 and 657-682). -/
structure DjangoFields where
  tmdb_id : Int
  title : String
  year : Int
  genres : String
  overview : String
  poster_path : String
  popularity : Rat
  language : String
  imdb_id : String
  imdb_rating : Option Rat
  imdb_votes : String
  metascore : Option Int
  rotten_tomatoes : String
  director : String
  writer : String
  actors : String
  rated : String
  released : String
  country : String
  awards : String
  box_office : String
  production : String
  runtime : Option Int
deriving DecidableEq

/-- `TMDBParser.movie_to_django_fields` (lines 259-332).  `none` models the
`return None` rejections (missing title, missing/out-of-range year); it is
also returned when `id` is absent, where the source's `int(movie_data['id'])`
would in fact raise `KeyError` — that path is unreachable for input accepted
by a validator that requires the id. -/
def movie_to_django_fields (m : RawMovie) : Option DjangoFields :=
  match pyOrS m.title m.original_title with
  | none => none
  | some t =>
      if t = "" then none
      else
        match parse_release_year m.release_date with
        | none => none
        | some year =>
            let genres := parse_genres m.genre_ids
            let poster0 := m.poster_path.getD ""
            let poster :=
              if poster0 != "" && !pyStartsWith poster0 "http" then
                "https://image.tmdb.org/t/p/w500" ++ poster0
              else poster0
            let pop := m.popularity.getD 0
            let overview := m.overview.getD ""
            let lang := m.original_language.getD ""
            m.id.map fun i =>
              { tmdb_id := i
                title := pySlice t 255
                year := year
                genres := pySlice genres 500
                overview := overview
                poster_path := pySlice poster 500
                popularity := pop
                language := pySlice lang 200
                imdb_id := ""
                imdb_rating := none
                imdb_votes := ""
                metascore := none
                rotten_tomatoes := ""
                director := ""
                writer := ""
                actors := ""
                rated := ""
                released := m.release_date.getD ""
                country := ""
                awards := ""
                box_office := ""
                production := ""
                runtime := none }

/-- A decoded Python value, as produced by `json.loads` /
`ast.literal_eval` on the embedded sub-structure columns. -/
inductive PyVal where
  | pnull : PyVal
  | pbool : Bool → PyVal
  | pint : Int → PyVal
  | pstr : String → PyVal
  | plist : List PyVal → PyVal
  | pdict : List (String × PyVal) → PyVal

/-- Python truthiness of a decoded value. -/
def pyTruthy : PyVal → Bool
  | .pnull => false
  | .pbool b => b
  | .pint n => n != 0
  | .pstr s => s != ""
  | .plist l => !l.isEmpty
  | .pdict l => !l.isEmpty

/-- Dict lookup `d.get(k)`. -/
def pvLookup (d : List (String × PyVal)) (k : String) : Option PyVal :=
  (d.find? fun p => p.1 == k).map fun p => p.2

/-- `item.get(k, '')` for a string-valued key (a non-string value there
would make the source's `.lower()` / `', '.join` raise; such rows do not
occur and are modelled as the default). -/
def pvGetStr (d : List (String × PyVal)) (k : String) : String :=
  match pvLookup d k with
  | some (.pstr s) => s
  | _ => ""

/-- The `'name' in item` extraction shared by the genre / cast / company
extractors: a dict contributes its `name` string, a bare string contributes
itself, anything else is skipped. -/
def itemNameStr : PyVal → Option String
  | .pdict d =>
      match pvLookup d "name" with
      | some (.pstr s) => some s
      | _ => none
  | .pstr s => some s
  | _ => none

/-- The single-quote character, written by code point to keep source text
plain. -/
def squoteChar : Char := Char.ofNat 39

/-- The double-quote character. -/
def dquoteChar : Char := Char.ofNat 34

/-- `value.replace("'", '"')` from `_parse_json_field`. -/
def replace_squote (s : String) : String :=
  String.mk (s.data.map fun c => if c = squoteChar then dquoteChar else c)

/-- `KaggleTMDBParser._parse_json_field` (lines 389-406), parameterized by
the two library decoders (`json.loads` after the quote replacement, then
`ast.literal_eval`), each modelled as returning `none` on a decode error:
guard the trivial markers, try structured decoding, fall back to literal
decoding, and on total failure return absence instead of raising. -/
def parse_json_field (jsonLoads literalEval : String → Option PyVal)
    (value : String) : Option PyVal :=
  if value = "" || value = "[]" || value = "\x7b\x7d" || value = "nan" || value = "None" then
    none
  else
    match jsonLoads (replace_squote value) with
    | some v => some v
    | none => literalEval value

/-- `KaggleTMDBParser._extract_genres` (lines 408-422). -/
def extract_genres (jsonLoads literalEval : String → Option PyVal)
    (genres_str : String) : String :=
  match parse_json_field jsonLoads literalEval genres_str with
  | none => ""
  | some parsed =>
      if !pyTruthy parsed then ""
      else
        match parsed with
        | .plist l => String.intercalate ", " (l.filterMap itemNameStr)
        | _ => ""

/-- `KaggleTMDBParser._extract_cast` (lines 424-438): first `lim` items. -/
def extract_cast (jsonLoads literalEval : String → Option PyVal)
    (cast_str : String) (lim : Nat) : String :=
  match parse_json_field jsonLoads literalEval cast_str with
  | none => ""
  | some parsed =>
      if !pyTruthy parsed then ""
      else
        match parsed with
        | .plist l => String.intercalate ", " ((l.take lim).filterMap itemNameStr)
        | _ => ""

/-- `item.get('job', '').lower()` of a crew item. -/
def crewJob (d : List (String × PyVal)) : String :=
  pyLower (pvGetStr d "job")

/-- `KaggleTMDBParser._extract_crew` (lines 440-464): directors and
writers (`writer`/`screenplay`/`story`), three names each. -/
def extract_crew (jsonLoads literalEval : String → Option PyVal)
    (crew_str : String) : String × String :=
  match parse_json_field jsonLoads literalEval crew_str with
  | none => ("", "")
  | some parsed =>
      match parsed with
      | .plist l =>
          if l.isEmpty then ("", "")
          else
            let directors := l.filterMap fun item =>
              match item with
              | .pdict d =>
                  if crewJob d = "director" ∧ pvGetStr d "name" ≠ "" then
                    some (pvGetStr d "name")
                  else none
              | _ => none
            let writers := l.filterMap fun item =>
              match item with
              | .pdict d =>
                  if (crewJob d = "writer" ∨ crewJob d = "screenplay" ∨ crewJob d = "story")
                      ∧ pvGetStr d "name" ≠ "" then
                    some (pvGetStr d "name")
                  else none
              | _ => none
            (String.intercalate ", " (directors.take 3),
             String.intercalate ", " (writers.take 3))
      | _ => ("", "")

/-- `KaggleTMDBParser._extract_production_companies` (lines 466-480):
first five items. -/
def extract_production_companies (jsonLoads literalEval : String → Option PyVal)
    (prod_str : String) : String :=
  match parse_json_field jsonLoads literalEval prod_str with
  | none => ""
  | some parsed =>
      if !pyTruthy parsed then ""
      else
        match parsed with
        | .plist l => String.intercalate ", " ((l.take 5).filterMap itemNameStr)
        | _ => ""

/-- `KaggleTMDBParser._extract_countries` (lines 482-498):
`item.get('name') or item.get('iso_3166_1', '')`. -/
def extract_countries (jsonLoads literalEval : String → Option PyVal)
    (countries_str : String) : String :=
  match parse_json_field jsonLoads literalEval countries_str with
  | none => ""
  | some parsed =>
      if !pyTruthy parsed then ""
      else
        match parsed with
        | .plist l =>
            String.intercalate ", " (l.filterMap fun item =>
              match item with
              | .pdict d =>
                  let n1 := pvGetStr d "name"
                  let n2 := pvGetStr d "iso_3166_1"
                  let n := if n1 = "" then n2 else n1
                  if n = "" then none else some n
              | .pstr s => some s
              | _ => none)
        | _ => ""

/-- `KaggleTMDBParser._extract_languages` (lines 500-516):
`english_name or name or iso_639_1`. -/
def extract_languages (jsonLoads literalEval : String → Option PyVal)
    (lang_str : String) : String :=
  match parse_json_field jsonLoads literalEval lang_str with
  | none => ""
  | some parsed =>
      if !pyTruthy parsed then ""
      else
        match parsed with
        | .plist l =>
            String.intercalate ", " (l.filterMap fun item =>
              match item with
              | .pdict d =>
                  let n1 := pvGetStr d "english_name"
                  let n2 := pvGetStr d "name"
                  let n3 := pvGetStr d "iso_639_1"
                  let n := if n1 ≠ "" then n1 else if n2 ≠ "" then n2 else n3
                  if n = "" then none else some n
              | .pstr s => some s
              | _ => none)
        | _ => ""

/-- Digit groups of three for Python's `f"{n:,}"` formatting, taken from
the reversed digit list. -/
def chunk3 : List Char → List (List Char)
  | [] => []
  | [a] => [[a]]
  | [a, b] => [[b, a]]
  | a :: b :: c :: rest => [c, b, a] :: chunk3 rest

/-- Python `f"{n:,}"`: decimal rendering with thousands separators. -/
def pyCommaFmt (n : Int) : String :=
  let digits := (toString n.natAbs).data
  let grouped := String.intercalate "," (((chunk3 digits.reverse).reverse).map String.mk)
  if n < 0 then "-" ++ grouped else grouped

/-- One row of the Kaggle CSV as `csv.DictReader` delivers it: every
consulted column as an optional string (`none` when the column is absent,
in which case `row.get(key, default)` falls back to its default). -/
structure CsvRow where
  status : Option String
  vote_count : Option String
  title : Option String
  original_title : Option String
  release_date : Option String
  id : Option String
  crew : Option String
  poster_path : Option String
  revenue : Option String
  imdb_rating : Option String
  imdb_vote_count : Option String
  genres : Option String
  overview : Option String
  popularity : Option String
  spoken_languages : Option String
  imdb_id : Option String
  cast : Option String
  production_countries : Option String
  production_companies : Option String
  runtime : Option String
deriving DecidableEq

/-- `KaggleTMDBParser._row_to_movie` (lines 596-682), parameterized by the
two embedded-structure decoders.  Numeric columns with integer defaults
(`get('vote_count', 0)` etc.) default to the string `"0"`, which coerces to
the same value the Python default does. -/
def row_to_movie (jsonLoads literalEval : String → Option PyVal)
    (only_released : Bool) (min_votes : Int) (row : CsvRow) : Option DjangoFields :=
  let status := pyLower (row.status.getD "")
  if only_released ∧ status ≠ "released" then none
  else
    let vote_count := safe_int (row.vote_count.getD "0")
    if 0 < min_votes ∧ vote_count.getD 0 < min_votes then none
    else
      let t1 := row.title.getD ""
      let title := if t1 = "" then row.original_title.getD "" else t1
      if title = "" then none
      else
        match parse_year (row.release_date.getD "") with
        | none => none
        | some year =>
            match safe_int (row.id.getD "") with
            | none => none
            | some tid =>
                if tid = 0 then none
                else
                  let crew_info := extract_crew jsonLoads literalEval (row.crew.getD "[]")
                  let poster0 := row.poster_path.getD ""
                  let poster :=
                    if poster0 != "" && !pyStartsWith poster0 "http" then
                      "https://image.tmdb.org/t/p/w500" ++ poster0
                    else poster0
                  let revenue := safe_int (row.revenue.getD "0")
                  let box_office :=
                    match revenue with
                    | some rv => if 0 < rv then "$" ++ pyCommaFmt rv else ""
                    | none => ""
                  let imdb_votes_raw := safe_int (row.imdb_vote_count.getD "0")
                  let imdb_votes :=
                    match imdb_votes_raw with
                    | some v => if v ≠ 0 then pyCommaFmt v else ""
                    | none => ""
                  some
                    { tmdb_id := tid
                      title := pySlice title 255
                      year := year
                      genres := pySlice (extract_genres jsonLoads literalEval (row.genres.getD "[]")) 500
                      overview := pySlice (row.overview.getD "") 5000
                      poster_path := pySlice poster 500
                      popularity := (safe_float (row.popularity.getD "")).getD 0
                      language := pySlice (extract_languages jsonLoads literalEval (row.spoken_languages.getD "[]")) 200
                      imdb_id := pySlice (row.imdb_id.getD "") 50
                      imdb_rating := safe_float (row.imdb_rating.getD "")
                      imdb_votes := pySlice imdb_votes 100
                      metascore := none
                      rotten_tomatoes := ""
                      director := pySlice crew_info.1 500
                      writer := pySlice crew_info.2 500
                      actors := pySlice (extract_cast jsonLoads literalEval (row.cast.getD "[]") 10) 1000
                      rated := ""
                      released := pySlice (row.release_date.getD "") 100
                      country := pySlice (extract_countries jsonLoads literalEval (row.production_countries.getD "[]")) 200
                      awards := ""
                      box_office := pySlice box_office 100
                      production := pySlice (extract_production_companies jsonLoads literalEval (row.production_companies.getD "[]")) 500
                      runtime := safe_int (row.runtime.getD "") }

/-- A decoder that fails on every input, for concrete instantiations. -/
def noDecode : String → Option PyVal := fun _ => none

/-- A decoded JSON object with an `original_title` but no `id` key — the
input on which the validator's operator precedence matters. -/
def c7Input : RawMovie :=
  { id := none, title := none, original_title := some "Ghost",
    release_date := some "1999-01-01", genre_ids := [], poster_path := none,
    popularity := none, overview := none, adult := false,
    original_language := none }

/-- An overview one character longer than the 5000-character bound the
tabular path enforces. -/
def bigOverview : String := String.mk (List.replicate 5001 'a')

/-- A minimal valid hierarchical movie object carrying `bigOverview`. -/
def c8mBig : RawMovie :=
  { id := some 7, title := some "T", original_title := none,
    release_date := some "1999-01-01", genre_ids := [], poster_path := none,
    popularity := none, overview := some bigOverview, adult := false,
    original_language := none }

/-- The field dict `movie_to_django_fields` produces for `c8mBig`: the
overview is passed through untruncated. -/
def c8fBig : DjangoFields :=
  { tmdb_id := 7, title := "T", year := 1999, genres := "",
    overview := bigOverview, poster_path := "", popularity := 0,
    language := "", imdb_id := "", imdb_rating := none, imdb_votes := "",
    metascore := none, rotten_tomatoes := "", director := "", writer := "",
    actors := "", rated := "", released := "1999-01-01", country := "",
    awards := "", box_office := "", production := "", runtime := none }

/-- A CSV row that passes every filter and required-field check, with the
genres column set to an arbitrary string `g`. -/
def rowWithGenres (g : String) : CsvRow :=
  { status := some "Released", vote_count := some "100",
    title := some "Interstellar", original_title := none,
    release_date := some "2014-11-05", id := some "157336", crew := none,
    poster_path := none, revenue := none, imdb_rating := none,
    imdb_vote_count := none, genres := some g, overview := some "A space epic",
    popularity := none, spoken_languages := none, imdb_id := some "tt0816692",
    cast := none, production_countries := none, production_companies := none,
    runtime := some "169" }

/-- The field dict `_row_to_movie` produces for `rowWithGenres g` whenever
the genres column fails to decode: the row is kept, with an empty genre
list. -/
def c9Expected : DjangoFields :=
  { tmdb_id := 157336, title := "Interstellar", year := 2014, genres := "",
    overview := "A space epic", poster_path := "", popularity := 0,
    language := "", imdb_id := "tt0816692", imdb_rating := none,
    imdb_votes := "", metascore := none, rotten_tomatoes := "",
    director := "", writer := "", actors := "", rated := "",
    released := "2014-11-05", country := "", awards := "", box_office := "",
    production := "", runtime := some 169 }

/-!
Lemmas about the supervisor loop.  The break-free loop `importFold` is
characterized against the specification-level `acceptedRows`/`dupCount`
functions, and `importSteps` agrees with it whenever the accepted records
stay strictly below the limit.
-/

theorem finalFlush_spec (s : ImportState) :
    (finalFlush s).imported = s.imported + s.batch.length
  ∧ (finalFlush s).commits.flatten = s.commits.flatten ++ s.batch
  ∧ (finalFlush s).existingIds = s.existingIds
  ∧ (finalFlush s).skippedExisting = s.skippedExisting
  ∧ (finalFlush s).skippedInvalid = s.skippedInvalid
  ∧ (finalFlush s).skippedAdult = s.skippedAdult
  ∧ (finalFlush s).skippedUnpopular = s.skippedUnpopular
  ∧ (finalFlush s).processed = s.processed := by
  by_cases hb : s.batch.isEmpty
  · rw [List.isEmpty_iff] at hb
    simp [finalFlush, hb]
  · simp [finalFlush, flushBatch, hb]

theorem initState_imported (seed : List Int) : (initState seed).imported = 0 := rfl

theorem initState_skippedExisting (seed : List Int) :
    (initState seed).skippedExisting = 0 := rfl

theorem initState_skippedInvalid (seed : List Int) :
    (initState seed).skippedInvalid = 0 := rfl

theorem initState_skippedAdult (seed : List Int) :
    (initState seed).skippedAdult = 0 := rfl

theorem initState_skippedUnpopular (seed : List Int) :
    (initState seed).skippedUnpopular = 0 := rfl

theorem initState_processed (seed : List Int) : (initState seed).processed = 0 := rfl

theorem initState_existingIds (seed : List Int) :
    (initState seed).existingIds = seed := rfl

theorem initState_batch (seed : List Int) : (initState seed).batch = [] := rfl

theorem initState_commits (seed : List Int) : (initState seed).commits = [] := rfl

theorem importStep_adult (bs : Nat) (s : ImportState) :
    importStep bs s .adult
      = { s with processed := s.processed + 1, skippedAdult := s.skippedAdult + 1 } := rfl

theorem importStep_unpopular (bs : Nat) (s : ImportState) :
    importStep bs s .unpopular
      = { s with processed := s.processed + 1, skippedUnpopular := s.skippedUnpopular + 1 } := rfl

theorem importStep_invalid (bs : Nat) (s : ImportState) :
    importStep bs s .invalid
      = { s with processed := s.processed + 1, skippedInvalid := s.skippedInvalid + 1 } := rfl

theorem importStep_dup (bs : Nat) (s : ImportState) (r : MovieRow)
    (hm : r.tmdbId ∈ s.existingIds) :
    importStep bs s (.valid r)
      = { s with processed := s.processed + 1,
                 skippedExisting := s.skippedExisting + 1 } := by
  simp [importStep, hm]

theorem importStep_accept_flush (bs : Nat) (s : ImportState) (r : MovieRow)
    (hm : r.tmdbId ∉ s.existingIds) (hf : bs ≤ s.batch.length + 1) :
    importStep bs s (.valid r)
      = flushBatch { s with processed := s.processed + 1,
                            existingIds := r.tmdbId :: s.existingIds,
                            batch := s.batch ++ [r] } := by
  simp [importStep, hm, hf]

theorem importStep_accept_noflush (bs : Nat) (s : ImportState) (r : MovieRow)
    (hm : r.tmdbId ∉ s.existingIds) (hf : ¬ bs ≤ s.batch.length + 1) :
    importStep bs s (.valid r)
      = { s with processed := s.processed + 1,
                 existingIds := r.tmdbId :: s.existingIds,
                 batch := s.batch ++ [r] } := by
  simp [importStep, hm, hf]

theorem importFold_nat (bs : Nat) (l : List StreamItem) : ∀ s : ImportState,
    (importFold bs s l).imported + (importFold bs s l).batch.length
        = s.imported + s.batch.length + (acceptedRows s.existingIds l).length
  ∧ (importFold bs s l).skippedExisting = s.skippedExisting + dupCount s.existingIds l
  ∧ (importFold bs s l).skippedInvalid = s.skippedInvalid + countInvalid l
  ∧ (importFold bs s l).skippedAdult = s.skippedAdult + countAdult l
  ∧ (importFold bs s l).skippedUnpopular = s.skippedUnpopular + countUnpopular l
  ∧ (importFold bs s l).processed = s.processed + l.length := by
  induction l with
  | nil =>
      intro s
      simp [importFold, acceptedRows, dupCount, countInvalid, countAdult, countUnpopular]
  | cons it rest ih =>
      intro s
      cases it with
      | adult =>
          obtain ⟨h1, h2, h3, h4, h5, h6⟩ :=
            ih { s with processed := s.processed + 1, skippedAdult := s.skippedAdult + 1 }
          dsimp only at h1 h2 h3 h4 h5 h6
          simp only [importFold, importStep_adult, acceptedRows, dupCount, countInvalid,
            countAdult, countUnpopular, List.length_cons]
          omega
      | unpopular =>
          obtain ⟨h1, h2, h3, h4, h5, h6⟩ :=
            ih { s with processed := s.processed + 1, skippedUnpopular := s.skippedUnpopular + 1 }
          dsimp only at h1 h2 h3 h4 h5 h6
          simp only [importFold, importStep_unpopular, acceptedRows, dupCount, countInvalid,
            countAdult, countUnpopular, List.length_cons]
          omega
      | invalid =>
          obtain ⟨h1, h2, h3, h4, h5, h6⟩ :=
            ih { s with processed := s.processed + 1, skippedInvalid := s.skippedInvalid + 1 }
          dsimp only at h1 h2 h3 h4 h5 h6
          simp only [importFold, importStep_invalid, acceptedRows, dupCount, countInvalid,
            countAdult, countUnpopular, List.length_cons]
          omega
      | valid r =>
          by_cases hm : r.tmdbId ∈ s.existingIds
          · obtain ⟨h1, h2, h3, h4, h5, h6⟩ :=
              ih { s with processed := s.processed + 1, skippedExisting := s.skippedExisting + 1 }
            dsimp only at h1 h2 h3 h4 h5 h6
            simp only [importFold, importStep_dup bs s r hm, acceptedRows, if_pos hm,
              dupCount, countInvalid, countAdult, countUnpopular, List.length_cons]
            omega
          · by_cases hf : bs ≤ s.batch.length + 1
            · obtain ⟨h1, h2, h3, h4, h5, h6⟩ :=
                ih (flushBatch { s with processed := s.processed + 1,
                                        existingIds := r.tmdbId :: s.existingIds,
                                        batch := s.batch ++ [r] })
              simp only [importFold, importStep_accept_flush bs s r hm hf, acceptedRows,
                if_neg hm, dupCount, countInvalid, countAdult, countUnpopular,
                List.length_cons]
              simp only [flushBatch, List.length_append, List.length_cons,
                List.length_nil] at h1 h2 h3 h4 h5 h6 ⊢
              try dsimp only at h1 h2 h3 h4 h5 h6
              omega
            · obtain ⟨h1, h2, h3, h4, h5, h6⟩ :=
                ih { s with processed := s.processed + 1,
                            existingIds := r.tmdbId :: s.existingIds,
                            batch := s.batch ++ [r] }
              simp only [importFold, importStep_accept_noflush bs s r hm hf, acceptedRows,
                if_neg hm, dupCount, countInvalid, countAdult, countUnpopular,
                List.length_cons]
              simp only [List.length_append, List.length_cons, List.length_nil]
                at h1 h2 h3 h4 h5 h6
              try dsimp only at h1 h2 h3 h4 h5 h6
              omega

theorem importFold_lists (bs : Nat) (l : List StreamItem) : ∀ s : ImportState,
    (importFold bs s l).commits.flatten ++ (importFold bs s l).batch
        = (s.commits.flatten ++ s.batch) ++ acceptedRows s.existingIds l
  ∧ (importFold bs s l).existingIds
        = ((acceptedRows s.existingIds l).map MovieRow.tmdbId).reverse ++ s.existingIds := by
  induction l with
  | nil =>
      intro s
      simp [importFold, acceptedRows]
  | cons it rest ih =>
      intro s
      cases it with
      | adult =>
          obtain ⟨h1, h2⟩ :=
            ih { s with processed := s.processed + 1, skippedAdult := s.skippedAdult + 1 }
          simp only [importFold, importStep_adult, acceptedRows]
          exact ⟨h1, h2⟩
      | unpopular =>
          obtain ⟨h1, h2⟩ :=
            ih { s with processed := s.processed + 1, skippedUnpopular := s.skippedUnpopular + 1 }
          simp only [importFold, importStep_unpopular, acceptedRows]
          exact ⟨h1, h2⟩
      | invalid =>
          obtain ⟨h1, h2⟩ :=
            ih { s with processed := s.processed + 1, skippedInvalid := s.skippedInvalid + 1 }
          simp only [importFold, importStep_invalid, acceptedRows]
          exact ⟨h1, h2⟩
      | valid r =>
          by_cases hm : r.tmdbId ∈ s.existingIds
          · obtain ⟨h1, h2⟩ :=
              ih { s with processed := s.processed + 1, skippedExisting := s.skippedExisting + 1 }
            simp only [importFold, importStep_dup bs s r hm, acceptedRows, if_pos hm]
            exact ⟨h1, h2⟩
          · by_cases hf : bs ≤ s.batch.length + 1
            · obtain ⟨h1, h2⟩ :=
                ih (flushBatch { s with processed := s.processed + 1,
                                        existingIds := r.tmdbId :: s.existingIds,
                                        batch := s.batch ++ [r] })
              simp only [importFold, importStep_accept_flush bs s r hm hf, acceptedRows,
                if_neg hm]
              refine ⟨?_, ?_⟩
              · rw [h1]
                simp [flushBatch, List.flatten_append, List.flatten_cons, List.flatten_nil,
                  List.append_nil, List.append_assoc, List.cons_append, List.singleton_append]
              · rw [h2]
                simp [flushBatch, List.reverse_cons, List.append_assoc, List.cons_append,
                  List.singleton_append]
            · obtain ⟨h1, h2⟩ :=
                ih { s with processed := s.processed + 1,
                            existingIds := r.tmdbId :: s.existingIds,
                            batch := s.batch ++ [r] }
              simp only [importFold, importStep_accept_noflush bs s r hm hf, acceptedRows,
                if_neg hm]
              refine ⟨?_, ?_⟩
              · rw [h1]
                simp [List.append_assoc]
              · rw [h2]
                simp [List.reverse_cons, List.append_assoc]

theorem importSteps_eq_fold (limit bs : Nat) (l : List StreamItem) : ∀ s : ImportState,
    s.imported + s.batch.length + (acceptedRows s.existingIds l).length < limit →
    importSteps limit bs s l = importFold bs s l := by
  induction l with
  | nil =>
      intro s _
      simp [importSteps, importFold]
  | cons it rest ih =>
      intro s h
      have hlt : ¬ limit ≤ s.imported := by omega
      cases it with
      | adult =>
          simp only [importSteps, importFold, if_neg hlt]
          apply ih
          simp only [importStep_adult]
          simpa [acceptedRows] using h
      | unpopular =>
          simp only [importSteps, importFold, if_neg hlt]
          apply ih
          simp only [importStep_unpopular]
          simpa [acceptedRows] using h
      | invalid =>
          simp only [importSteps, importFold, if_neg hlt]
          apply ih
          simp only [importStep_invalid]
          simpa [acceptedRows] using h
      | valid r =>
          simp only [importSteps, importFold, if_neg hlt]
          by_cases hm : r.tmdbId ∈ s.existingIds
          · apply ih
            simp only [importStep_dup bs s r hm]
            simpa [acceptedRows, if_pos hm] using h
          · simp only [acceptedRows, if_neg hm, List.length_cons] at h
            by_cases hf : bs ≤ s.batch.length + 1
            · apply ih
              simp only [importStep_accept_flush bs s r hm hf, flushBatch,
                List.length_append, List.length_cons, List.length_nil]
              omega
            · apply ih
              simp only [importStep_accept_noflush bs s r hm hf,
                List.length_append, List.length_cons, List.length_nil]
              omega

theorem accepted_add_dup (l : List StreamItem) : ∀ seen : List Int,
    (acceptedRows seen l).length + dupCount seen l = countValid l := by
  induction l with
  | nil => intro seen; simp [acceptedRows, dupCount, countValid]
  | cons it rest ih =>
      intro seen
      cases it with
      | adult => simpa [acceptedRows, dupCount, countValid] using ih seen
      | unpopular => simpa [acceptedRows, dupCount, countValid] using ih seen
      | invalid => simpa [acceptedRows, dupCount, countValid] using ih seen
      | valid r =>
          by_cases hm : r.tmdbId ∈ seen
          · have h := ih seen
            simp only [acceptedRows, dupCount, countValid, if_pos hm]
            omega
          · have h := ih (r.tmdbId :: seen)
            simp only [acceptedRows, dupCount, countValid, if_neg hm, List.length_cons]
            omega

theorem acceptedRows_ids (l : List StreamItem) : ∀ seen : List Int,
    ((acceptedRows seen l).map MovieRow.tmdbId).Nodup
  ∧ ∀ i ∈ (acceptedRows seen l).map MovieRow.tmdbId, i ∉ seen := by
  induction l with
  | nil => intro seen; simp [acceptedRows]
  | cons it rest ih =>
      intro seen
      cases it with
      | adult => simpa [acceptedRows] using ih seen
      | unpopular => simpa [acceptedRows] using ih seen
      | invalid => simpa [acceptedRows] using ih seen
      | valid r =>
          by_cases hm : r.tmdbId ∈ seen
          · simpa [acceptedRows, if_pos hm] using ih seen
          · obtain ⟨hnd, hni⟩ := ih (r.tmdbId :: seen)
            simp only [acceptedRows, if_neg hm, List.map_cons, List.nodup_cons]
            refine ⟨⟨?_, hnd⟩, ?_⟩
            · intro hmem
              exact (hni _ hmem) (List.mem_cons_self _ _)
            · intro i hi
              rcases List.mem_cons.mp hi with h | h
              · subst h
                exact hm
              · intro hcontra
                exact (hni i h) (List.mem_cons_of_mem _ hcontra)

theorem acceptedRows_nil_of_superset (l : List StreamItem) : ∀ seen bigger : List Int,
    (∀ i ∈ seen, i ∈ bigger) →
    (∀ i ∈ (acceptedRows seen l).map MovieRow.tmdbId, i ∈ bigger) →
    acceptedRows bigger l = [] := by
  induction l with
  | nil => intro seen bigger _ _; simp [acceptedRows]
  | cons it rest ih =>
      intro seen bigger hsub hacc
      cases it with
      | adult => simpa [acceptedRows] using ih seen bigger hsub (by simpa [acceptedRows] using hacc)
      | unpopular => simpa [acceptedRows] using ih seen bigger hsub (by simpa [acceptedRows] using hacc)
      | invalid => simpa [acceptedRows] using ih seen bigger hsub (by simpa [acceptedRows] using hacc)
      | valid r =>
          by_cases hm : r.tmdbId ∈ seen
          · have hrb : r.tmdbId ∈ bigger := hsub _ hm
            simp only [acceptedRows, if_pos hrb]
            exact ih seen bigger hsub (by simpa [acceptedRows, if_pos hm] using hacc)
          · simp only [acceptedRows, if_neg hm, List.map_cons] at hacc
            have hrb : r.tmdbId ∈ bigger := hacc _ (List.mem_cons_self _ _)
            simp only [acceptedRows, if_pos hrb]
            refine ih (r.tmdbId :: seen) bigger ?_ ?_
            · intro i hi
              rcases List.mem_cons.mp hi with h | h
              · exact h ▸ hrb
              · exact hsub _ h
            · intro i hi
              exact hacc _ (List.mem_cons_of_mem _ hi)

/-- The full characterization of an uninterrupted run whose accepted records
stay strictly below the limit: every counter and the committed output match
the specification-level values. -/
theorem bulkImport_spec (limit bs : Nat) (seed : List Int) (stream : List StreamItem)
    (h : (acceptedRows seed stream).length < limit) :
    (bulkImport limit bs seed stream).imported = (acceptedRows seed stream).length
  ∧ (bulkImport limit bs seed stream).skippedExisting = dupCount seed stream
  ∧ (bulkImport limit bs seed stream).commits.flatten = acceptedRows seed stream
  ∧ (bulkImport limit bs seed stream).existingIds
      = ((acceptedRows seed stream).map MovieRow.tmdbId).reverse ++ seed
  ∧ (bulkImport limit bs seed stream).skippedInvalid = countInvalid stream
  ∧ (bulkImport limit bs seed stream).skippedAdult = countAdult stream
  ∧ (bulkImport limit bs seed stream).skippedUnpopular = countUnpopular stream
  ∧ (bulkImport limit bs seed stream).processed = stream.length := by
  have hinit : (initState seed).imported + (initState seed).batch.length
      + (acceptedRows (initState seed).existingIds stream).length < limit := by
    simp only [initState_imported, initState_batch, initState_existingIds, List.length_nil]
    omega
  have heq := importSteps_eq_fold limit bs stream (initState seed) hinit
  obtain ⟨n1, n2, n3, n4, n5, n6⟩ := importFold_nat bs stream (initState seed)
  obtain ⟨l1, l2⟩ := importFold_lists bs stream (initState seed)
  simp only [initState_imported, initState_batch, initState_existingIds,
    initState_skippedExisting, initState_skippedInvalid, initState_skippedAdult,
    initState_skippedUnpopular, initState_processed, initState_commits,
    List.length_nil, List.flatten_nil, List.nil_append, List.append_nil,
    Nat.zero_add, Nat.add_zero] at n1 n2 n3 n4 n5 n6 l1 l2
  obtain ⟨f1, f2, f3, f4, f5, f6, f7, f8⟩ :=
    finalFlush_spec (importFold bs (initState seed) stream)
  refine ⟨?_, ?_, ?_, ?_, ?_, ?_, ?_, ?_⟩
  · rw [bulkImport, heq, f1]
    omega
  · rw [bulkImport, heq, f4]
    exact n2
  · rw [bulkImport, heq, f2]
    exact l1
  · rw [bulkImport, heq, f3]
    exact l2
  · rw [bulkImport, heq, f5]
    exact n3
  · rw [bulkImport, heq, f6]
    exact n4
  · rw [bulkImport, heq, f7]
    exact n5
  · rw [bulkImport, heq, f8]
    exact n6

/-- Bookkeeping invariant of any prefix of the streaming loop: `imported`
equals the number of committed records, the ids of committed-plus-pending
records are pairwise distinct, and each of them has been promoted into the
in-memory id set. -/
theorem importSteps_inv (limit bs : Nat) (l : List StreamItem) : ∀ s : ImportState,
    s.imported = s.commits.flatten.length →
    ((s.commits.flatten ++ s.batch).map MovieRow.tmdbId).Nodup →
    (∀ r ∈ s.commits.flatten ++ s.batch, r.tmdbId ∈ s.existingIds) →
    (importSteps limit bs s l).imported = (importSteps limit bs s l).commits.flatten.length
  ∧ (((importSteps limit bs s l).commits.flatten ++ (importSteps limit bs s l).batch).map
        MovieRow.tmdbId).Nodup
  ∧ ∀ r ∈ (importSteps limit bs s l).commits.flatten ++ (importSteps limit bs s l).batch,
        r.tmdbId ∈ (importSteps limit bs s l).existingIds := by
  induction l with
  | nil =>
      intro s h1 h2 h3
      simp only [importSteps]
      exact ⟨h1, h2, h3⟩
  | cons it rest ih =>
      intro s h1 h2 h3
      by_cases hlt : limit ≤ s.imported
      · simp only [importSteps, if_pos hlt]
        exact ⟨h1, h2, h3⟩
      · simp only [importSteps, if_neg hlt]
        cases it with
        | adult =>
            exact ih _ (by simpa [importStep_adult] using h1)
              (by simpa [importStep_adult] using h2)
              (by simpa [importStep_adult] using h3)
        | unpopular =>
            exact ih _ (by simpa [importStep_unpopular] using h1)
              (by simpa [importStep_unpopular] using h2)
              (by simpa [importStep_unpopular] using h3)
        | invalid =>
            exact ih _ (by simpa [importStep_invalid] using h1)
              (by simpa [importStep_invalid] using h2)
              (by simpa [importStep_invalid] using h3)
        | valid r =>
            by_cases hm : r.tmdbId ∈ s.existingIds
            · exact ih _ (by simpa [importStep_dup bs s r hm] using h1)
                (by simpa [importStep_dup bs s r hm] using h2)
                (by simpa [importStep_dup bs s r hm] using h3)
            · have hnew : r.tmdbId ∉ (s.commits.flatten ++ s.batch).map MovieRow.tmdbId := by
                intro hmem
                obtain ⟨x, hx, hxid⟩ := List.mem_map.mp hmem
                exact hm (hxid ▸ h3 x hx)
              have hnd2 : ((s.commits.flatten ++ s.batch ++ [r]).map MovieRow.tmdbId).Nodup := by
                have hsplit : (s.commits.flatten ++ s.batch ++ [r]).map MovieRow.tmdbId
                    = (s.commits.flatten ++ s.batch).map MovieRow.tmdbId ++ [r.tmdbId] := by
                  simp [List.map_append]
                rw [hsplit]
                refine List.Nodup.append h2 (List.nodup_singleton _) ?_
                intro a ha hb
                simp only [List.mem_singleton] at hb
                exact hnew (hb ▸ ha)
              have hmem2 : ∀ x ∈ s.commits.flatten ++ s.batch ++ [r],
                  x.tmdbId ∈ r.tmdbId :: s.existingIds := by
                intro x hx
                rcases List.mem_append.mp hx with hx | hx
                · exact List.mem_cons_of_mem _ (h3 x hx)
                · simp only [List.mem_singleton] at hx
                  subst hx
                  exact List.mem_cons_self _ _
              by_cases hf : bs ≤ s.batch.length + 1
              · refine ih _ ?_ ?_ ?_
                · simp only [importStep_accept_flush bs s r hm hf, flushBatch,
                    List.flatten_append, List.flatten_cons, List.flatten_nil,
                    List.append_nil, List.length_append, List.length_cons, List.length_nil]
                  omega
                · simp only [importStep_accept_flush bs s r hm hf, flushBatch,
                    List.flatten_append, List.flatten_cons, List.flatten_nil,
                    List.append_nil]
                  simpa [List.append_assoc] using hnd2
                · intro x hx
                  simp only [importStep_accept_flush bs s r hm hf, flushBatch,
                    List.flatten_append, List.flatten_cons, List.flatten_nil,
                    List.append_nil] at hx ⊢
                  exact hmem2 x (by simpa [List.append_assoc] using hx)
              · refine ih _ ?_ ?_ ?_
                · simpa [importStep_accept_noflush bs s r hm hf] using h1
                · simp only [importStep_accept_noflush bs s r hm hf]
                  simpa [List.append_assoc] using hnd2
                · intro x hx
                  simp only [importStep_accept_noflush bs s r hm hf] at hx ⊢
                  exact hmem2 x (by simpa [List.append_assoc] using hx)

theorem countValid_map_valid (rows : List MovieRow) :
    countValid (rows.map StreamItem.valid) = rows.length := by
  induction rows with
  | nil => simp [countValid]
  | cons r rest ih => simp [countValid, ih]

/-- The pending batch stays strictly below the batch size and
`imported + len(batch)` stays below `limit + batch_size` throughout the
loop (for a positive batch size). -/
theorem importSteps_bound (limit bs : Nat) (hbs : 1 ≤ bs) (l : List StreamItem) :
    ∀ s : ImportState, s.batch.length < bs →
    s.imported + s.batch.length < limit + bs →
    (importSteps limit bs s l).batch.length < bs
  ∧ (importSteps limit bs s l).imported + (importSteps limit bs s l).batch.length
      < limit + bs := by
  induction l with
  | nil =>
      intro s hb hj
      simp only [importSteps]
      exact ⟨hb, hj⟩
  | cons it rest ih =>
      intro s hb hj
      by_cases hlt : limit ≤ s.imported
      · simp only [importSteps, if_pos hlt]
        exact ⟨hb, hj⟩
      · simp only [importSteps, if_neg hlt]
        cases it with
        | adult =>
            exact ih _ (by simpa [importStep_adult] using hb)
              (by simpa [importStep_adult] using hj)
        | unpopular =>
            exact ih _ (by simpa [importStep_unpopular] using hb)
              (by simpa [importStep_unpopular] using hj)
        | invalid =>
            exact ih _ (by simpa [importStep_invalid] using hb)
              (by simpa [importStep_invalid] using hj)
        | valid r =>
            by_cases hm : r.tmdbId ∈ s.existingIds
            · exact ih _ (by simpa [importStep_dup bs s r hm] using hb)
                (by simpa [importStep_dup bs s r hm] using hj)
            · by_cases hf : bs ≤ s.batch.length + 1
              · refine ih _ ?_ ?_
                · simp only [importStep_accept_flush bs s r hm hf, flushBatch,
                    List.length_append, List.length_cons, List.length_nil]
                  omega
                · simp only [importStep_accept_flush bs s r hm hf, flushBatch,
                    List.length_append, List.length_cons, List.length_nil]
                  omega
              · refine ih _ ?_ ?_
                · simp only [importStep_accept_noflush bs s r hm hf,
                    List.length_append, List.length_cons, List.length_nil]
                  omega
                · simp only [importStep_accept_noflush bs s r hm hf,
                    List.length_append, List.length_cons, List.length_nil]
                  omega

/-!
The claims.
-/

/-- C1 (amended): for a stream of N well-formed entries of which M have ids
already in the seeded set or repeated earlier in the stream, provided N − M
is strictly below the record limit (the claim's "not exceeding" is not
enough, see the counterexample), the run ends with
`imported = N − M` and `skipped_existing = M`; each id is accepted and
committed at most once, and the in-memory set ends as exactly the seed plus
the accepted ids. -/
theorem C1_conservation (seed : List Int) (rows : List MovieRow) (limit bs : Nat)
    (h : (acceptedRows seed (rows.map StreamItem.valid)).length < limit) :
    (bulkImport limit bs seed (rows.map StreamItem.valid)).imported
        + (bulkImport limit bs seed (rows.map StreamItem.valid)).skippedExisting
      = rows.length
  ∧ (bulkImport limit bs seed (rows.map StreamItem.valid)).skippedExisting
      = dupCount seed (rows.map StreamItem.valid)
  ∧ (bulkImport limit bs seed (rows.map StreamItem.valid)).commits.flatten
      = acceptedRows seed (rows.map StreamItem.valid)
  ∧ ((acceptedRows seed (rows.map StreamItem.valid)).map MovieRow.tmdbId).Nodup
  ∧ (bulkImport limit bs seed (rows.map StreamItem.valid)).existingIds
      = ((acceptedRows seed (rows.map StreamItem.valid)).map MovieRow.tmdbId).reverse
          ++ seed := by
  obtain ⟨s1, s2, s3, s4, _, _, _, _⟩ := bulkImport_spec limit bs seed _ h
  have hsplit := accepted_add_dup (rows.map StreamItem.valid) seed
  have hcv := countValid_map_valid rows
  refine ⟨?_, s2, s3, (acceptedRows_ids (rows.map StreamItem.valid) seed).1, s4⟩
  omega

/-- C1 witness: three entries, one an in-stream duplicate, limit not
reached: imported 2, skipped 1. -/
theorem C1_conservation_witness :
    (bulkImport 10 2 []
        (([⟨1, 0⟩, ⟨2, 0⟩, ⟨1, 1⟩] : List MovieRow).map StreamItem.valid)).imported
      + (bulkImport 10 2 []
        (([⟨1, 0⟩, ⟨2, 0⟩, ⟨1, 1⟩] : List MovieRow).map StreamItem.valid)).skippedExisting
      = 3
  ∧ (bulkImport 10 2 []
        (([⟨1, 0⟩, ⟨2, 0⟩, ⟨1, 1⟩] : List MovieRow).map StreamItem.valid)).skippedExisting
      = dupCount [] (([⟨1, 0⟩, ⟨2, 0⟩, ⟨1, 1⟩] : List MovieRow).map StreamItem.valid) := by
  have h := C1_conservation [] [⟨1, 0⟩, ⟨2, 0⟩, ⟨1, 1⟩] 10 2 (by decide)
  exact ⟨by simpa using h.1, h.2.1⟩

/-- C1 counterexample: stream `[id 1, id 1]`, `N = 2`, `M = 1`, limit `1`:
the claim's premise `N − M ≤ limit` holds, yet the limit break fires before
the duplicate is examined, so `skipped_existing = 0 ≠ M`; the claim as
stated (with "not exceeding") is false. -/
theorem C1_counterexample :
    dupCount [] (([⟨1, 0⟩, ⟨1, 1⟩] : List MovieRow).map StreamItem.valid) = 1
  ∧ ([⟨1, 0⟩, ⟨1, 1⟩] : List MovieRow).length - 1 ≤ 1
  ∧ (bulkImport 1 1 []
        (([⟨1, 0⟩, ⟨1, 1⟩] : List MovieRow).map StreamItem.valid)).imported = 1
  ∧ (bulkImport 1 1 []
        (([⟨1, 0⟩, ⟨1, 1⟩] : List MovieRow).map StreamItem.valid)).skippedExisting
      = 0 := by decide

/-- C2 (amended): provided the first run's accepted records stay strictly
below the limit (so the limit break never truncates the stream — without
this the counterexample applies), re-running against the first run's output
id set yields `imported = 0`, every well-formed entry is counted
skipped-existing, and every other entry is rejected for the same reason as
before. -/
theorem C2_idempotence (seed : List Int) (stream : List StreamItem) (limit bs : Nat)
    (h : (acceptedRows seed stream).length < limit) :
    (bulkImport limit bs (bulkImport limit bs seed stream).existingIds stream).imported = 0
  ∧ (bulkImport limit bs (bulkImport limit bs seed stream).existingIds stream).skippedExisting
      = countValid stream
  ∧ (bulkImport limit bs (bulkImport limit bs seed stream).existingIds stream).skippedInvalid
      = (bulkImport limit bs seed stream).skippedInvalid
  ∧ (bulkImport limit bs (bulkImport limit bs seed stream).existingIds stream).skippedAdult
      = (bulkImport limit bs seed stream).skippedAdult
  ∧ (bulkImport limit bs (bulkImport limit bs seed stream).existingIds stream).skippedUnpopular
      = (bulkImport limit bs seed stream).skippedUnpopular := by
  obtain ⟨_, _, _, r1ids, r1inv, r1ad, r1unp, _⟩ := bulkImport_spec limit bs seed stream h
  have hsub : ∀ i ∈ seed, i ∈ (bulkImport limit bs seed stream).existingIds := by
    intro i hi
    rw [r1ids]
    exact List.mem_append_right _ hi
  have hacc : ∀ i ∈ (acceptedRows seed stream).map MovieRow.tmdbId,
      i ∈ (bulkImport limit bs seed stream).existingIds := by
    intro i hi
    rw [r1ids]
    exact List.mem_append_left _ (List.mem_reverse.mpr hi)
  have hnil : acceptedRows (bulkImport limit bs seed stream).existingIds stream = [] :=
    acceptedRows_nil_of_superset stream seed _ hsub hacc
  have h2 : (acceptedRows (bulkImport limit bs seed stream).existingIds stream).length
      < limit := by
    rw [hnil]
    simp only [List.length_nil]
    omega
  obtain ⟨r2imp, r2dup, _, _, r2inv, r2ad, r2unp, _⟩ :=
    bulkImport_spec limit bs (bulkImport limit bs seed stream).existingIds stream h2
  have hsplit := accepted_add_dup stream (bulkImport limit bs seed stream).existingIds
  rw [hnil] at r2imp hsplit
  refine ⟨by simpa using r2imp, ?_, r2inv.trans r1inv.symm, r2ad.trans r1ad.symm,
    r2unp.trans r1unp.symm⟩
  rw [r2dup]
  simpa using hsplit

/-- C2 witness: a two-entry stream, limit not reached; the second run
imports nothing and skips both entries as existing. -/
theorem C2_idempotence_witness :
    (bulkImport 10 1 (bulkImport 10 1 []
        [.valid ⟨1, 0⟩, .valid ⟨2, 0⟩]).existingIds
        [.valid ⟨1, 0⟩, .valid ⟨2, 0⟩]).imported = 0
  ∧ (bulkImport 10 1 (bulkImport 10 1 []
        [.valid ⟨1, 0⟩, .valid ⟨2, 0⟩]).existingIds
        [.valid ⟨1, 0⟩, .valid ⟨2, 0⟩]).skippedExisting
      = countValid [.valid ⟨1, 0⟩, .valid ⟨2, 0⟩] := by
  have h := C2_idempotence [] [.valid ⟨1, 0⟩, .valid ⟨2, 0⟩] 10 1 (by decide)
  exact ⟨h.1, h.2.1⟩

/-- C2 counterexample: limit 1, two fresh entries: the first run imports
one entry and breaks; the second run, seeded with the first run's output,
imports the entry the break skipped — `imported = 1 ≠ 0`. -/
theorem C2_counterexample :
    (bulkImport 1 1 (bulkImport 1 1 []
        [.valid ⟨1, 0⟩, .valid ⟨2, 0⟩]).existingIds
        [.valid ⟨1, 0⟩, .valid ⟨2, 0⟩]).imported = 1 := by decide

/-- C3 (amended): provided the accepted records stay strictly below the
limit (without this the counterexample applies), the final `imported` count
— and the committed output itself — is the same for every batch size. -/
theorem C3_batch_invariance (seed : List Int) (stream : List StreamItem)
    (limit bs1 bs2 : Nat) (h : (acceptedRows seed stream).length < limit) :
    (bulkImport limit bs1 seed stream).imported
      = (bulkImport limit bs2 seed stream).imported
  ∧ (bulkImport limit bs1 seed stream).commits.flatten
      = (bulkImport limit bs2 seed stream).commits.flatten := by
  obtain ⟨a1, _, a3, _, _, _, _, _⟩ := bulkImport_spec limit bs1 seed stream h
  obtain ⟨b1, _, b3, _, _, _, _, _⟩ := bulkImport_spec limit bs2 seed stream h
  exact ⟨a1.trans b1.symm, a3.trans b3.symm⟩

/-- C3 witness: batch sizes 1 and 10000 agree on a concrete stream. -/
theorem C3_batch_invariance_witness :
    (bulkImport 10 1 [] [.valid ⟨1, 0⟩, .valid ⟨2, 0⟩]).imported
      = (bulkImport 10 10000 [] [.valid ⟨1, 0⟩, .valid ⟨2, 0⟩]).imported := by
  exact (C3_batch_invariance [] [.valid ⟨1, 0⟩, .valid ⟨2, 0⟩] 10 1 10000 (by decide)).1

/-- C3 counterexample: limit 1, two fresh entries: batch size 1 imports 1,
batch size 2 imports 2 — the final count depends on the batch size. -/
theorem C3_counterexample :
    (bulkImport 1 1 [] [.valid ⟨1, 0⟩, .valid ⟨2, 0⟩]).imported = 1
  ∧ (bulkImport 1 2 [] [.valid ⟨1, 0⟩, .valid ⟨2, 0⟩]).imported = 2 := by decide

/-- C4 (amended): the loop stops pulling once `imported ≥ limit`, but
because `imported` only advances at flush boundaries the final count can
overshoot the limit by up to `batch_size − 1`:
`imported < limit + batch_size` for every stream, seed and positive batch
size — and no better bound holds (see the counterexample, where
`imported > limit`). -/
theorem C4_limit_bound (limit bs : Nat) (seed : List Int) (stream : List StreamItem)
    (hbs : 1 ≤ bs) :
    (bulkImport limit bs seed stream).imported < limit + bs := by
  obtain ⟨hb, hj⟩ := importSteps_bound limit bs hbs stream (initState seed)
    (by simp only [initState_batch, List.length_nil]; omega)
    (by simp only [initState_imported, initState_batch, List.length_nil]; omega)
  have f1 := (finalFlush_spec (importSteps limit bs (initState seed) stream)).1
  rw [bulkImport, f1]
  omega

/-- C4 witness: the bound applied at limit 1, batch size 2. -/
theorem C4_limit_bound_witness :
    (bulkImport 1 2 [] [.valid ⟨1, 0⟩, .valid ⟨2, 0⟩]).imported < 1 + 2 :=
  C4_limit_bound 1 2 [] [.valid ⟨1, 0⟩, .valid ⟨2, 0⟩] (by decide)

/-- C4 counterexample: limit 1, batch size 2, two fresh entries: the final
`imported` is 2, exceeding the configured limit of 1 — "imported never
exceeds the configured record limit" is false. -/
theorem C4_counterexample :
    (bulkImport 1 2 [] [.valid ⟨1, 0⟩, .valid ⟨2, 0⟩]).imported = 2 := by decide

/-- C5 (amended): on a batch-level commit failure every record is retried
individually — a record that individually succeeds is committed, a record
that individually fails is silently dropped, and never more than the batch
is written; but the committer reports no count back: the supervisor
unconditionally adds the full batch length to `imported`. -/
theorem C5_commit_contract (ok : MovieRow → Bool) (batch : List MovieRow) :
    (∀ r ∈ batch, ok r = true → r ∈ bulk_create_batch false ok batch)
  ∧ (∀ r ∈ bulk_create_batch false ok batch, r ∈ batch ∧ ok r = true)
  ∧ (bulk_create_batch false ok batch).length ≤ batch.length
  ∧ ∀ s : ImportState, (flushBatch s).imported = s.imported + s.batch.length := by
  refine ⟨?_, ?_, ?_, ?_⟩
  · intro r hr hok
    simp only [bulk_create_batch, if_neg Bool.false_ne_true, List.mem_filter]
    exact ⟨hr, hok⟩
  · intro r hr
    simp only [bulk_create_batch, if_neg Bool.false_ne_true, List.mem_filter] at hr
    exact hr
  · simp only [bulk_create_batch, if_neg Bool.false_ne_true]
    exact List.length_filter_le _ _
  · intro s
    rfl

/-- C5 witness: in a batch where the record with id 2 individually fails,
the record with id 1 is still committed, and the flush adds the full batch
length to `imported`. -/
theorem C5_commit_witness :
    (⟨1, 0⟩ : MovieRow) ∈
        bulk_create_batch false (fun r => r.tmdbId != 2) [⟨1, 0⟩, ⟨2, 0⟩]
  ∧ (flushBatch { initState [] with batch := [⟨1, 0⟩, ⟨2, 0⟩] }).imported = 2 := by
  refine ⟨(C5_commit_contract (fun r => r.tmdbId != 2) [⟨1, 0⟩, ⟨2, 0⟩]).1 _
    (by decide) (by decide), ?_⟩
  exact (C5_commit_contract (fun r => r.tmdbId != 2) [⟨1, 0⟩, ⟨2, 0⟩]).2.2.2
    { initState [] with batch := [⟨1, 0⟩, ⟨2, 0⟩] }

/-- C5 counterexample: same failing batch: only 1 record is actually
persisted, yet the supervisor counts 2 — the committer does not "return the
count of records actually committed" (the Python function returns nothing
and the caller adds `len(batch)`). -/
theorem C5_counterexample :
    (bulk_create_batch false (fun r => r.tmdbId != 2) [⟨1, 0⟩, ⟨2, 0⟩]).length = 1
  ∧ (flushBatch { initState [] with batch := [⟨1, 0⟩, ⟨2, 0⟩] }).imported = 2 := by decide

/-- C6: if cancellation arrives at a record boundary when exactly K records
sit in the pending batch, no flush has happened yet and K is below the
batch size, the interrupt handler commits exactly those K records — the
final `imported` is K, exactly K records are committed, and no id is
committed twice. -/
theorem C6_interruption_safety (limit bs : Nat) (seed : List Int)
    (stream : List StreamItem) (k K : Nat)
    (hc : (importSteps limit bs (initState seed) (stream.take k)).commits = [])
    (hK : (importSteps limit bs (initState seed) (stream.take k)).batch.length = K)
    (hbs : K < bs) :
    (bulkImportInterrupted limit bs seed stream k).imported = K
  ∧ (bulkImportInterrupted limit bs seed stream k).commits.flatten.length = K
  ∧ ((bulkImportInterrupted limit bs seed stream k).commits.flatten.map
        MovieRow.tmdbId).Nodup := by
  obtain ⟨i1, i2, _⟩ := importSteps_inv limit bs (stream.take k) (initState seed)
    (by simp [initState_imported, initState_commits])
    (by simp [initState_commits, initState_batch])
    (by simp [initState_commits, initState_batch])
  obtain ⟨f1, f2, _, _, _, _, _, _⟩ :=
    finalFlush_spec (importSteps limit bs (initState seed) (stream.take k))
  have himp0 : (importSteps limit bs (initState seed) (stream.take k)).imported = 0 := by
    rw [i1, hc]
    simp
  refine ⟨?_, ?_, ?_⟩
  · rw [bulkImportInterrupted, f1, himp0, hK]
    omega
  · rw [bulkImportInterrupted, f2, hc]
    simpa using hK
  · rw [bulkImportInterrupted, f2, hc]
    simpa [hc] using i2

/-- C6 witness: interrupt after two accepted records with batch size 3: the
handler commits exactly those two records. -/
theorem C6_interruption_safety_witness :
    (bulkImportInterrupted 10 3 [] [.valid ⟨1, 0⟩, .valid ⟨2, 0⟩, .valid ⟨3, 0⟩] 2).imported
      = 2
  ∧ (bulkImportInterrupted 10 3 []
        [.valid ⟨1, 0⟩, .valid ⟨2, 0⟩, .valid ⟨3, 0⟩] 2).commits.flatten.length = 2 := by
  have h := C6_interruption_safety 10 3 [] [.valid ⟨1, 0⟩, .valid ⟨2, 0⟩, .valid ⟨3, 0⟩]
    2 2 (by decide) (by decide) (by decide)
  exact ⟨h.1, h.2.1⟩

/-- C7: the code contradicts the claim (and its own docstring): because
Python parses the validator's body as `(A and B and C) or D`, an object
with no `id` at all but a non-empty `original_title` is accepted — whereas
the stated rule (`is_valid_movie_spec`) rejects every object lacking the
identifier regardless of its other fields.  Downstream,
`movie_to_django_fields` evaluates `movie_data['id']` on such an object and
raises `KeyError`, aborting the whole import. -/
theorem C7_validator_precedence_bug :
    c7Input.id = none
  ∧ is_valid_movie c7Input = true
  ∧ is_valid_movie_spec c7Input = false := by decide

theorem pySlice_length_le (s : String) (n : Nat) : (pySlice s n).length ≤ n := by
  have h : (pySlice s n).length = (s.data.take n).length := rfl
  rw [h, List.length_take]
  omega

/-- C8 (amended): both normalizers truncate title to 255, genres to 500,
poster URL to 500 and language to 200 characters, and the tabular path
bounds the overview at 5000 — but the hierarchical path passes the overview
through completely untruncated (see the counterexample), so "every text
field ... in both paths" does not hold for the overview. -/
theorem C8_truncation_amended :
    (∀ (m : RawMovie) (f : DjangoFields), movie_to_django_fields m = some f →
        f.title.length ≤ 255 ∧ f.genres.length ≤ 500 ∧ f.poster_path.length ≤ 500
      ∧ f.language.length ≤ 200 ∧ f.overview = m.overview.getD "")
  ∧ (∀ (jl le : String → Option PyVal) (orl : Bool) (mv : Int) (row : CsvRow)
        (f : DjangoFields), row_to_movie jl le orl mv row = some f →
        f.title.length ≤ 255 ∧ f.genres.length ≤ 500 ∧ f.poster_path.length ≤ 500
      ∧ f.language.length ≤ 200 ∧ f.overview.length ≤ 5000) := by
  constructor
  · intro m f h
    simp only [movie_to_django_fields] at h
    split at h
    · exact Option.noConfusion h
    · split at h
      · exact Option.noConfusion h
      · split at h
        · exact Option.noConfusion h
        · obtain ⟨i, _, hf⟩ := Option.map_eq_some'.mp h
          subst hf
          exact ⟨pySlice_length_le _ _, pySlice_length_le _ _, pySlice_length_le _ _,
            pySlice_length_le _ _, rfl⟩
  · intro jl le orl mv row f h
    simp only [row_to_movie] at h
    repeat' split at h
    all_goals
      first
      | exact Option.noConfusion h
      | (simp only [Option.some.injEq] at h
         subst h
         exact ⟨pySlice_length_le _ _, pySlice_length_le _ _,
           pySlice_length_le _ _, pySlice_length_le _ _, pySlice_length_le _ _⟩)

/-- C8 witness: the hierarchical bounds at a concrete accepted input, and
the tabular overview bound at a concrete row. -/
theorem C8_truncation_witness :
    c8fBig.title.length ≤ 255
  ∧ c8fBig.overview = c8mBig.overview.getD ""
  ∧ c9Expected.overview.length ≤ 5000 :=
  ⟨(C8_truncation_amended.1 c8mBig c8fBig rfl).1,
   (C8_truncation_amended.1 c8mBig c8fBig rfl).2.2.2.2,
   (C8_truncation_amended.2 noDecode noDecode true 0 (rowWithGenres "[]")
      c9Expected rfl).2.2.2.2⟩

/-- C8 counterexample: a hierarchical movie whose overview has 5001
characters is emitted with all 5001 characters — the overview is not
truncated to any canonical maximum on this path. -/
theorem C8_counterexample :
    (movie_to_django_fields c8mBig).map (fun f => f.overview.length) = some 5001 := by
  have key : movie_to_django_fields c8mBig = some c8fBig := rfl
  rw [key, Option.map_some']
  have hlen : c8fBig.overview.length = 5001 := by
    show (List.replicate 5001 'a').length = 5001
    exact List.length_replicate 5001 'a'
  rw [hlen]

/-- Evaluation of `_row_to_movie` on `rowWithGenres g` when the genres
column fails to decode: only the genres field of the output depends on the
decoders, so the whole row normalizes to `c9Expected`. -/
theorem row_to_movie_rowWithGenres (jl le : String → Option PyVal) (g : String)
    (hged : extract_genres jl le g = "") :
    row_to_movie jl le true 0 (rowWithGenres g) = some c9Expected := by
  have key : row_to_movie jl le true 0 (rowWithGenres g)
      = some { c9Expected with genres := pySlice (extract_genres jl le g) 500 } := rfl
  rw [key, hged]
  rfl

/-- C9: for every embedded sub-structure value (past the trivial-marker
guard), the decoder first tries structured decoding on the quote-normalized
text, falls back to the permissive literal decoder when that fails, and
returns absence (never raising) when both fail; consequently a row whose
genres column is undecodable by both decoders still yields a complete
record with an empty genre list instead of being dropped. -/
theorem C9_decode_fallback :
    (∀ (jl le : String → Option PyVal) (v : String) (x : PyVal),
        v ≠ "" → v ≠ "[]" → v ≠ "\x7b\x7d" → v ≠ "nan" → v ≠ "None" →
        jl (replace_squote v) = some x → parse_json_field jl le v = some x)
  ∧ (∀ (jl le : String → Option PyVal) (v : String),
        v ≠ "" → v ≠ "[]" → v ≠ "\x7b\x7d" → v ≠ "nan" → v ≠ "None" →
        jl (replace_squote v) = none → parse_json_field jl le v = le v)
  ∧ (∀ (jl le : String → Option PyVal) (g : String),
        g ≠ "" → g ≠ "[]" → g ≠ "\x7b\x7d" → g ≠ "nan" → g ≠ "None" →
        jl (replace_squote g) = none → le g = none →
        parse_json_field jl le g = none
      ∧ row_to_movie jl le true 0 (rowWithGenres g) = some c9Expected
      ∧ c9Expected.genres = "") := by
  refine ⟨?_, ?_, ?_⟩
  · intro jl le v x h1 h2 h3 h4 h5 hjl
    simp [parse_json_field, h1, h2, h3, h4, h5, hjl]
  · intro jl le v h1 h2 h3 h4 h5 hjl
    simp [parse_json_field, h1, h2, h3, h4, h5, hjl]
  · intro jl le g h1 h2 h3 h4 h5 hjl hle
    have hpjf : parse_json_field jl le g = none := by
      simp [parse_json_field, h1, h2, h3, h4, h5, hjl, hle]
    have hged : extract_genres jl le g = "" := by
      simp [extract_genres, hpjf]
    exact ⟨hpjf, row_to_movie_rowWithGenres jl le g hged, rfl⟩

/-- C9 witness: with both decoders failing on the malformed genres string
`":::bad"`, the row is still emitted, genre-less. -/
theorem C9_decode_fallback_witness :
    parse_json_field noDecode noDecode ":::bad" = none
  ∧ row_to_movie noDecode noDecode true 0 (rowWithGenres ":::bad") = some c9Expected
  ∧ c9Expected.genres = "" :=
  C9_decode_fallback.2.2 noDecode noDecode ":::bad" (by decide) (by decide) (by decide)
    (by decide) (by decide) rfl rfl

/-- C10: a row whose identifier column coerces to the integer 0 is rejected
by `_row_to_movie` — `if not tmdb_id` treats 0 like a missing id — no
matter what the rest of the row contains; and `_safe_int` coerces via
`int(float(value))`, truncating decimal strings toward zero. -/
theorem C10_zero_id_rejected :
    (∀ (jl le : String → Option PyVal) (orl : Bool) (mv : Int) (row : CsvRow),
        safe_int (row.id.getD "") = some 0 →
        row_to_movie jl le orl mv row = none)
  ∧ safe_int "0" = some 0
  ∧ safe_int "12.7" = some 12
  ∧ safe_int "-12.7" = some (-12) := by
  refine ⟨?_, by decide, by decide, by decide⟩
  intro jl le orl mv row h
  simp only [row_to_movie, h]
  repeat' split
  all_goals first | rfl | simp_all

/-- C10 witness: a row that passes the status, vote, title and year checks
but whose id column is the string `"0"` is rejected. -/
theorem C10_zero_id_rejected_witness :
    safe_int (({ rowWithGenres "[]" with id := some "0" } : CsvRow).id.getD "") = some 0
  ∧ row_to_movie noDecode noDecode true 0 ({ rowWithGenres "[]" with id := some "0" })
      = none := by
  refine ⟨by decide, ?_⟩
  exact C10_zero_id_rejected.1 noDecode noDecode true 0
    { rowWithGenres "[]" with id := some "0" } (by decide)

end Cinesense
